import Mathlib

/-!
Verification of the Uptime monitoring backend (Motia-based) against its
natural-language specification.  The definitions below are a shallow
embedding of the TypeScript handlers in the repository:

* `failProbe` / `successProbe` — the failure and success branches of the
  `PingMonitor` handler (probe executor).
* `monitorDownHandler` / `monitorRecoveredHandler` — the `MONITOR_DOWN`
  and `MONITOR_RECOVERED` handlers of `monitor-state.step.ts`.
* `classifyProbe` — the HTTP-outcome classification in `PingMonitor`.
* `severityFromZ`, `mean`, `pstdevSq`, `checkAnomaly` — the anomaly
  detector of `check-anomaly.step.ts`.
* `routeCriticalEmail` — the CRITICAL email branch of `send-alert.step.ts`.
* `createMonitorHandler` — the monitor-creation API handler.
* `initialStatusEvent`, `cleanup` — the SSE status-streaming handler.

JS numbers appearing in statistics are modelled as rationals (`ℚ`);
timestamps as integer epoch milliseconds (`Int`); nullable/undefined
values as `Option`.
-/

set_option maxHeartbeats 1000000

namespace Uptime

/-- Alert severity as used across the pipeline. -/
inductive Severity where
  | NORMAL
  | WARNING
  | CRITICAL
deriving DecidableEq, Repr

/-- Per-monitor alert state stored under the `monitor-state` key.
`state.get` returns `undefined` before any write, modelled as `none`
at use sites. -/
inductive AlertState where
  | UP
  | DOWN
  | ALERTED
deriving DecidableEq, Repr

/-- The per-monitor mutable state touched by the probe/alert pipeline:
the consecutive-failure counter (`monitor-failures` key, defaulting to 0
via `?? 0`) and the alert state (`monitor-state` key, `none` when never
written). -/
structure MonState where
  failures : Nat
  alertState : Option AlertState
deriving DecidableEq, Repr

/-- An alert request emitted on the SEND_ALERT topic, as far as the
state-machine claims are concerned: its severity and whether the
diagnostic carries `recovered: true`. -/
structure AlertReq where
  severity : Severity
  recovered : Bool
deriving DecidableEq, Repr

/-- Failure branch of the `PingMonitor` handler: increments the
consecutive-failure counter; when the new count reaches the threshold
and the monitor is not already DOWN or ALERTED, marks it DOWN and emits
MONITOR_DOWN (the returned `Bool`). -/
def failProbe (threshold : Nat) (s : MonState) : MonState × Bool :=
  let newFailures := s.failures + 1
  if threshold ≤ newFailures then
    if s.alertState ≠ some .DOWN ∧ s.alertState ≠ some .ALERTED then
      (⟨newFailures, some .DOWN⟩, true)
    else
      (⟨newFailures, s.alertState⟩, false)
  else
    (⟨newFailures, s.alertState⟩, false)

/-- The `MonitorDown` handler (`monitor-state.step.ts`): if the monitor
is already ALERTED the alert is suppressed; otherwise it emits one
SEND_ALERT with severity CRITICAL and marks the monitor ALERTED. -/
def monitorDownHandler (s : MonState) : MonState × List AlertReq :=
  if s.alertState = some .ALERTED then
    (s, [])
  else
    (⟨s.failures, some .ALERTED⟩, [⟨.CRITICAL, false⟩])

/-- One failed probe followed by delivery of any MONITOR_DOWN event it
emitted to the `MonitorDown` handler.  Returns the resulting state and
the SEND_ALERT requests produced. -/
def failStep (threshold : Nat) (s : MonState) : MonState × List AlertReq :=
  let (s1, down) := failProbe threshold s
  if down then monitorDownHandler s1 else (s1, [])

/-- `n` consecutive failed probes (each with MONITOR_DOWN delivery),
returning the final state and all SEND_ALERT requests in order. -/
def failRun (threshold : Nat) (s : MonState) : Nat → MonState × List AlertReq
  | 0 => (s, [])
  | n + 1 =>
    let (s1, a1) := failStep threshold s
    let (s2, a2) := failRun threshold s1 n
    (s2, a1 ++ a2)

/-- Success branch of the `PingMonitor` handler: resets the failure
counter (written only when nonzero, but the resulting value is always
0); if the state was DOWN or ALERTED, sets it to UP *and then* emits
MONITOR_RECOVERED (the returned `Bool`). -/
def successProbe (s : MonState) : MonState × Bool :=
  if s.alertState = some .DOWN ∨ s.alertState = some .ALERTED then
    (⟨0, some .UP⟩, true)
  else
    (⟨0, s.alertState⟩, false)

/-- The `MonitorRecovered` handler (`monitor-state.step.ts`): if the
state is unset or UP the signal is treated as stale (state forced to UP,
no alert); otherwise it emits one SEND_ALERT with severity NORMAL and
`diagnostic.recovered = true`, resets the failure counter and sets the
state to UP. -/
def monitorRecoveredHandler (s : MonState) : MonState × List AlertReq :=
  if s.alertState = none ∨ s.alertState = some .UP then
    (⟨s.failures, some .UP⟩, [])
  else
    (⟨0, some .UP⟩, [⟨.NORMAL, true⟩])

/-- One successful probe followed by delivery of any MONITOR_RECOVERED
event it emitted to the `MonitorRecovered` handler. -/
def successStep (s : MonState) : MonState × List AlertReq :=
  let (s1, rec) := successProbe s
  if rec then monitorRecoveredHandler s1 else (s1, [])

/-- Outcome of the HTTP GET issued by `PingMonitor`: either a response
with a status code (axios is configured with `validateStatus: () => true`,
so every received response resolves), or a transport-level rejection
whose error object may or may not carry a response status. -/
inductive ProbeOutcome where
  | response (status : Nat)
  | transportError (respStatus : Option Nat)
deriving DecidableEq, Repr

/-- The classification in `PingMonitor`: on a response,
`statusCode = res.status` and `success = res.status < 400`; on a
transport error, `statusCode = error?.response?.status ?? 0` and
`success = false`. Returns `(statusCode, success)`. -/
def classifyProbe : ProbeOutcome → Nat × Bool
  | .response s => (s, decide (s < 400))
  | .transportError rs => (rs.getD 0, false)

/-- A single failed probe while the monitor is already ALERTED leaves it
ALERTED, increments only the counter, and emits nothing. -/
theorem failStep_alerted (t f : Nat) :
    failStep t ⟨f, some .ALERTED⟩ = (⟨f + 1, some .ALERTED⟩, []) := by
  unfold failStep failProbe
  by_cases ht : t ≤ f + 1 <;> simp [ht]

/-- Consecutive failed probes while ALERTED never emit an alert. -/
theorem failRun_alerted (t f : Nat) : ∀ n,
    failRun t ⟨f, some .ALERTED⟩ n = (⟨f + n, some .ALERTED⟩, []) := by
  intro n
  induction n generalizing f with
  | zero => simp [failRun]
  | succ n ih =>
    rw [failRun, failStep_alerted]
    dsimp only
    rw [ih (f + 1)]
    dsimp only
    have hadd : f + 1 + n = f + (n + 1) := by omega
    simp [hadd]

/-- C1: starting from a monitor that is not DOWN or ALERTED, a run of
consecutive failed probes emits exactly one CRITICAL SEND_ALERT request
once the consecutive-failure count reaches the failure threshold, and no
further down-alert on later consecutive failures. -/
theorem C1_down_alert_emitted_once (t f n : Nat) (st : Option AlertState)
    (hst : st = none ∨ st = some .UP) :
    (failRun t ⟨f, st⟩ n).2 =
      if 1 ≤ n ∧ t ≤ f + n then [⟨.CRITICAL, false⟩] else [] := by
  induction n generalizing f with
  | zero => simp [failRun]
  | succ n ih =>
    have hne : st ≠ some AlertState.DOWN ∧ st ≠ some AlertState.ALERTED := by
      rcases hst with h | h <;> simp [h]
    rw [failRun]
    by_cases ht : t ≤ f + 1
    · have hstep : failStep t ⟨f, st⟩ = (⟨f + 1, some .ALERTED⟩, [⟨.CRITICAL, false⟩]) := by
        unfold failStep failProbe monitorDownHandler
        simp [ht, hne.1, hne.2]
      rw [hstep]
      dsimp only
      rw [failRun_alerted t (f + 1) n]
      dsimp only
      have hcond : 1 ≤ n + 1 ∧ t ≤ f + (n + 1) := ⟨by omega, by omega⟩
      simp [hcond]
    · have hstep : failStep t ⟨f, st⟩ = (⟨f + 1, st⟩, []) := by
        unfold failStep failProbe
        simp [ht]
      rw [hstep]
      dsimp only
      by_cases hc : 1 ≤ n ∧ t ≤ f + 1 + n
      · have hc' : 1 ≤ n + 1 ∧ t ≤ f + (n + 1) := ⟨by omega, by omega⟩
        simp only [ih (f + 1), hc, hc', if_true, if_pos, List.nil_append]
      · have hc' : ¬(1 ≤ n + 1 ∧ t ≤ f + (n + 1)) := by omega
        simp only [ih (f + 1), if_neg hc, if_neg hc', List.nil_append]

/-- Witness for C1 with the spec's Scenario A: threshold 3, three
consecutive failures produce exactly one CRITICAL alert request, and a
fourth consecutive failure produces no additional one. -/
theorem C1_down_alert_emitted_once_witness :
    (failRun 3 ⟨0, none⟩ 3).2 = [⟨.CRITICAL, false⟩] ∧
    (failRun 3 ⟨0, none⟩ 4).2 = [⟨.CRITICAL, false⟩] := by
  constructor
  · have h := C1_down_alert_emitted_once 3 0 3 none (Or.inl rfl)
    simpa using h
  · have h := C1_down_alert_emitted_once 3 0 4 none (Or.inl rfl)
    simpa using h

/-- C2 (code evaluated at the failing input): the success pipeline
(probe executor success branch, then delivery of MONITOR_RECOVERED to
the recovery handler) emits NO alert request at all — for an ALERTED
monitor with 3 consecutive failures the run ends with the counter reset
and state UP but an empty alert list, because `PingMonitor` sets the
state to UP before emitting MONITOR_RECOVERED, so `handlerRecovered`
reads UP and treats the signal as stale. -/
theorem C2_recovery_pipeline_emits_no_alert :
    successStep ⟨3, some .ALERTED⟩ = (⟨0, some .UP⟩, []) ∧
    (∀ f st, (successStep ⟨f, st⟩).2 = []) := by
  refine ⟨by decide, ?_⟩
  intro f st
  rcases st with _ | s
  · rfl
  · cases s <;> rfl

/-- C6: the recorded metric has `success = true` exactly when an HTTP
response was received with status strictly below 400; any transport
error yields `success = false`, and a transport failure whose error
carries no response yields `statusCode = 0`. -/
theorem C6_probe_success_classification (o : ProbeOutcome) :
    ((classifyProbe o).2 = true ↔ ∃ s, o = .response s ∧ s < 400) ∧
    (∀ rs, (classifyProbe (.transportError rs)).2 = false) ∧
    (classifyProbe (.transportError none)).1 = 0 := by
  refine ⟨?_, fun rs => rfl, rfl⟩
  cases o with
  | response s => simp [classifyProbe]
  | transportError rs => simp [classifyProbe]

/-- Witness for C6 at a concrete outcome. -/
theorem C6_probe_success_classification_witness :
    (classifyProbe (.response 200)).2 = true :=
  (C6_probe_success_classification (.response 200)).1.mpr ⟨200, rfl, by decide⟩

/-! ## Anomaly detector (`check-anomaly.step.ts`) -/

/-- `severityFromZ` from `check-anomaly.step.ts`: CRITICAL when the
absolute z-score exceeds 3, WARNING when it exceeds 2, else NORMAL. -/
def severityFromZ (z : ℚ) : Severity :=
  if |z| > 3 then .CRITICAL
  else if |z| > 2 then .WARNING
  else .NORMAL

/-- The overall-severity if-chain in the `CheckAnomaly` handler:
CRITICAL if either dimension is CRITICAL, else WARNING if either is
WARNING, else NORMAL. -/
def overallSeverity (sevLatency sevError : Severity) : Severity :=
  if sevLatency = .CRITICAL ∨ sevError = .CRITICAL then .CRITICAL
  else if sevLatency = .WARNING ∨ sevError = .WARNING then .WARNING
  else .NORMAL

/-- Numeric rank of a severity under the spec's order
CRITICAL > WARNING > NORMAL. -/
def sevRank : Severity → Nat
  | .NORMAL => 0
  | .WARNING => 1
  | .CRITICAL => 2

/-- The more severe of two severities (spec-side definition used to
compare against `overallSeverity`). -/
def moreSevere (a b : Severity) : Severity :=
  if sevRank b ≤ sevRank a then a else b

/-- `mean` from `check-anomaly.step.ts`: 0 on an empty list, else the
sum divided by the length. -/
def mean (nums : List ℚ) : ℚ :=
  if nums = [] then 0 else nums.sum / nums.length

/-- The square of `pstdev` from `check-anomaly.step.ts`: the source
returns `Math.sqrt(sumSq / n)`; the square keeps the computation in ℚ.
All comparisons the source makes against `pstdev` are reproduced below
on the squares. -/
def pstdevSq (nums : List ℚ) : ℚ :=
  if nums = [] then 0
  else ((nums.map (fun v => (v - mean nums) ^ 2)).sum) / nums.length

/-- The severity the source assigns to a dimension with test value `x`,
mean `mu` and squared population stdev `v`: the source computes
`z = stdev > 0 ? (x - mu) / stdev : 0` and applies `severityFromZ`.
Since `stdev = sqrt v`, `stdev > 0 ↔ v > 0` and `|z| > c ↔ (x - mu)² > c²·v`;
the equivalence with `severityFromZ` is proved in `zDimSeverity_sqrt`. -/
def zDimSeverity (x mu v : ℚ) : Severity :=
  if 0 < v then
    if 9 * v < (x - mu) ^ 2 then .CRITICAL
    else if 4 * v < (x - mu) ^ 2 then .WARNING
    else .NORMAL
  else .NORMAL

/-- The square of the z-score the source reports
(`z = stdev > 0 ? (x - mu)/stdev : 0`). -/
def zSq (x mu v : ℚ) : ℚ := if 0 < v then (x - mu) ^ 2 / v else 0

/-- Faithfulness of the squared comparisons: when the population stdev
is a positive rational `s`, `zDimSeverity` at variance `s²` agrees with
the source's `severityFromZ ((x - mu) / s)`. -/
theorem zDimSeverity_sqrt (x mu s : ℚ) (hs : 0 < s) :
    zDimSeverity x mu (s ^ 2) = severityFromZ ((x - mu) / s) := by
  unfold zDimSeverity severityFromZ
  have hv : 0 < s ^ 2 := by positivity
  have habs : |(x - mu) / s| = |x - mu| / s := by
    rw [abs_div, abs_of_pos hs]
  have h3 : (9 * s ^ 2 < (x - mu) ^ 2) ↔ (3 < |x - mu| / s) := by
    rw [lt_div_iff₀ hs]
    constructor
    · intro h
      nlinarith [sq_abs (x - mu), abs_nonneg (x - mu)]
    · intro h
      nlinarith [sq_abs (x - mu)]
  have h2 : (4 * s ^ 2 < (x - mu) ^ 2) ↔ (2 < |x - mu| / s) := by
    rw [lt_div_iff₀ hs]
    constructor
    · intro h
      nlinarith [sq_abs (x - mu), abs_nonneg (x - mu)]
    · intro h
      nlinarith [sq_abs (x - mu)]
  rw [if_pos hv, habs]
  simp only [gt_iff_lt, ← h3, ← h2]

/-- One probe metric as stored under `monitor-metrics`.  `timestamp` is
the epoch-millisecond value of the recorded ISO string, `none` when
`parseISO` fails on it; `latency`, `statusCode` and `success` are the
optional fields of the stream schema. -/
structure Metric where
  monitorId : String
  timestamp : Option Int
  latency : Option ℚ
  statusCode : Option Int
  success : Option Bool
deriving DecidableEq, Repr

/-- Per-dimension statistics reported in the `AnomalyResult`: test
value, mean, squared population stdev, squared z-score. -/
structure DimStats where
  value : ℚ
  avg : ℚ
  varQ : ℚ
  zSqVal : ℚ
deriving DecidableEq, Repr

/-- The result of `checkAnomaly`.  Early returns carry a `reason` and no
statistics; the full path carries both dimensions' statistics.
`alertEmitted` records whether a SEND_ALERT was emitted
(`severity ≠ NORMAL`). -/
structure AnomalyResult where
  severity : Severity
  reason : Option String
  samples : Option Nat
  latencyStats : Option DimStats
  errorStats : Option DimStats
  alertEmitted : Bool
deriving DecidableEq, Repr

/-- The windowing pass of the `CheckAnomaly` handler: keep metrics of
this monitor whose timestamp parses and is not before
`now − 60·60·1000` ms, paired with the parsed timestamp. -/
def windowedMetrics (now : Int) (monitorId : String) (all : List Metric) :
    List (Metric × Int) :=
  all.filterMap (fun m =>
    if m.monitorId = monitorId then
      match m.timestamp with
      | none => none
      | some t => if t < now - 3600000 then none else some (m, t)
    else none)

/-- The source's `metrics.sort((a, b) => a._ts - b._ts)`: stable
ascending sort by parsed timestamp. -/
def sortByTs (l : List (Metric × Int)) : List (Metric × Int) :=
  l.mergeSort (fun a b => a.2 ≤ b.2)

/-- The source's per-minute bucket key:
`Math.floor(ms / 60000) * 60000`. -/
def minuteKey (t : Int) : Int := (Int.fdiv t 60000) * 60000

/-- The bucket keys in ascending numeric order (the source collects
keys of a `Map` and sorts them ascending). -/
def bucketKeys (l : List (Metric × Int)) : List Int :=
  ((l.map (fun p => minuteKey p.2)).dedup).mergeSort (fun a b => a ≤ b)

/-- The per-minute failure fractions in bucket-key order: for each
bucket, (number of samples with `success === false`) / (bucket size). -/
def errorRates (l : List (Metric × Int)) : List ℚ :=
  (bucketKeys l).map (fun k =>
    let arr := l.filter (fun p => minuteKey p.2 = k)
    let failures := (arr.filter (fun p => p.1.success = some false)).length
    if 0 < arr.length then (failures : ℚ) / arr.length else 0)

/-- The `CheckAnomaly` handler: window and sort the metrics, return
early with reason `no_metrics` / `no_latency` when the window or the
latency sample set is empty, otherwise compute z-scores for the latest
latency and the latest per-minute error rate against the window
population, combine per-dimension severities, and emit an alert exactly
when the overall severity is not NORMAL. -/
def checkAnomaly (now : Int) (monitorId : String) (all : List Metric) :
    AnomalyResult :=
  let metrics := sortByTs (windowedMetrics now monitorId all)
  if metrics = [] then
    ⟨.NORMAL, some "no_metrics", none, none, none, false⟩
  else
    let latencies := metrics.filterMap (fun p => p.1.latency)
    if latencies = [] then
      ⟨.NORMAL, some "no_latency", none, none, none, false⟩
    else
      let meanLat := mean latencies
      let varLat := pstdevSq latencies
      let latestLatency := latencies.getLastD 0
      let sevLatency := zDimSeverity latestLatency meanLat varLat
      let rates := errorRates metrics
      let latestErrorRate := rates.getLastD 0
      let meanEr := mean rates
      let varEr := pstdevSq rates
      let sevError := zDimSeverity latestErrorRate meanEr varEr
      let severity := overallSeverity sevLatency sevError
      ⟨severity, none, some metrics.length,
        some ⟨latestLatency, meanLat, varLat, zSq latestLatency meanLat varLat⟩,
        some ⟨latestErrorRate, meanEr, varEr, zSq latestErrorRate meanEr varEr⟩,
        decide (severity ≠ .NORMAL)⟩

/-- C4: per-dimension severity is CRITICAL exactly when `|z| > 3`,
WARNING exactly when `2 < |z| ≤ 3`, NORMAL exactly when `|z| ≤ 2`, and
the handler's overall-severity combination is the more severe of the
two dimensions under CRITICAL > WARNING > NORMAL. -/
theorem C4_severity_mapping :
    (∀ z : ℚ,
      (severityFromZ z = .CRITICAL ↔ 3 < |z|) ∧
      (severityFromZ z = .WARNING ↔ 2 < |z| ∧ |z| ≤ 3) ∧
      (severityFromZ z = .NORMAL ↔ |z| ≤ 2)) ∧
    (∀ a b : Severity, overallSeverity a b = moreSevere a b) := by
  constructor
  · intro z
    unfold severityFromZ
    split_ifs with h1 h2
    · simp only [gt_iff_lt] at h1
      refine ⟨by simp [h1], ?_, ?_⟩
      · constructor
        · intro h; cases h
        · intro h; linarith [h.2]
      · constructor
        · intro h; cases h
        · intro h; linarith
    · simp only [gt_iff_lt, not_lt] at h1 h2
      refine ⟨?_, by simp [h2, h1], ?_⟩
      · constructor
        · intro h; cases h
        · intro h; linarith
      · constructor
        · intro h; cases h
        · intro h; linarith
    · simp only [gt_iff_lt, not_lt] at h1 h2
      refine ⟨?_, ?_, by simp [h2]⟩
      · constructor
        · intro h; cases h
        · intro h; linarith
      · constructor
        · intro h; cases h
        · intro h; linarith [h.1]
  · intro a b
    cases a <;> cases b <;> rfl

/-- `mean` of a one-element list is that element. -/
theorem mean_singleton (x : ℚ) : mean [x] = x := by
  simp [mean]

/-- The squared population stdev of a one-element list is 0. -/
theorem pstdevSq_singleton (x : ℚ) : pstdevSq [x] = 0 := by
  simp [pstdevSq, mean]

/-- C5: when the trailing 60-minute window holds exactly one sample
(with a numeric latency), both dimensions have squared stdev 0 and
squared z-score 0, the overall severity is NORMAL, and no alert is
emitted. -/
theorem C5_single_sample_window_normal (now t : Int) (mid : String)
    (all : List Metric) (m : Metric) (l : ℚ)
    (hw : windowedMetrics now mid all = [(m, t)])
    (hl : m.latency = some l) :
    (checkAnomaly now mid all).severity = .NORMAL ∧
    (checkAnomaly now mid all).alertEmitted = false ∧
    (checkAnomaly now mid all).latencyStats = some ⟨l, l, 0, 0⟩ ∧
    ∃ r : ℚ, (checkAnomaly now mid all).errorStats = some ⟨r, r, 0, 0⟩ := by
  unfold checkAnomaly
  rw [hw]
  simp [sortByTs, hl, mean_singleton, pstdevSq_singleton, zDimSeverity, zSq,
    overallSeverity, errorRates, bucketKeys, mean]

/-- Witness for C5: a concrete single-sample window. -/
theorem C5_single_sample_window_normal_witness :
    (checkAnomaly 0 "m" [⟨"m", some 0, some 5, some 200, some true⟩]).severity
      = .NORMAL ∧
    (checkAnomaly 0 "m" [⟨"m", some 0, some 5, some 200, some true⟩]).alertEmitted
      = false := by
  have h := C5_single_sample_window_normal 0 0 "m"
    [⟨"m", some 0, some 5, some 200, some true⟩]
    ⟨"m", some 0, some 5, some 200, some true⟩ 5
    (by decide) (by decide)
  exact ⟨h.1, h.2.1⟩

/-- C10: a non-empty window in which no metric carries a numeric
latency makes `checkAnomaly` return severity NORMAL with reason
`no_latency`, no statistics and no alert. -/
theorem C10_no_latency_reason (now : Int) (mid : String) (all : List Metric)
    (hne : windowedMetrics now mid all ≠ [])
    (hlat : ∀ p ∈ windowedMetrics now mid all, p.1.latency = none) :
    checkAnomaly now mid all =
      ⟨.NORMAL, some "no_latency", none, none, none, false⟩ := by
  unfold checkAnomaly
  have hperm := List.mergeSort_perm (windowedMetrics now mid all)
    (fun a b => a.2 ≤ b.2)
  have hsne : sortByTs (windowedMetrics now mid all) ≠ [] := by
    intro h
    apply hne
    rw [sortByTs] at h
    rw [h] at hperm
    exact hperm.symm.eq_nil
  have hnil : (sortByTs (windowedMetrics now mid all)).filterMap
      (fun p => p.1.latency) = [] := by
    rw [List.filterMap_eq_nil_iff]
    intro p hp
    exact hlat p (List.mem_mergeSort.mp hp)
  simp [hsne, hnil]

/-- Witness for C10: one in-window metric whose latency is absent. -/
theorem C10_no_latency_reason_witness :
    checkAnomaly 0 "m" [⟨"m", some 0, none, some 200, some false⟩] =
      ⟨.NORMAL, some "no_latency", none, none, none, false⟩ :=
  C10_no_latency_reason 0 "m" [⟨"m", some 0, none, some 200, some false⟩]
    (by decide) (by decide)

/-! ## Alert router (`send-alert.step.ts`) -/

/-- Process-wide environment configuration (`process.env.*`) read at
alert-dispatch time; `none` models an unset variable. -/
structure EnvConfig where
  emailApiUrlEnv : Option String
  emailApiKeyEnv : Option String
  emailToEnv : Option String
  emailFromEnv : Option String
  webhookUrlEnv : Option String
deriving DecidableEq, Repr

/-- The monitor-specific alert configuration fields read by the
`SendAlert` handler. -/
structure MonitorAlertCfg where
  emailApiUrl : Option String
  emailApiKey : Option String
  alertTo : Option String
  emailFrom : Option String
  alertWebhookUrl : Option String
deriving DecidableEq, Repr

/-- JS truthiness of an optional string: `undefined`/`null` and the
empty string are falsy. -/
def truthy : Option String → Bool
  | none => false
  | some s => decide (s ≠ "")

/-- The JS `a || b` operator on optional strings. -/
def jsOr (a b : Option String) : Option String := if truthy a then a else b

/-- `process.env.EMAIL_API_URL || monitor?.emailApiUrl` — env first. -/
def resolvedEmailApiUrl (env : EnvConfig) (m : MonitorAlertCfg) : Option String :=
  jsOr env.emailApiUrlEnv m.emailApiUrl

/-- `process.env.EMAIL_API_KEY || monitor?.emailApiKey` — env first. -/
def resolvedEmailApiKey (env : EnvConfig) (m : MonitorAlertCfg) : Option String :=
  jsOr env.emailApiKeyEnv m.emailApiKey

/-- `monitor?.alertTo || process.env.EMAIL_TO` — monitor first. -/
def resolvedEmailTo (env : EnvConfig) (m : MonitorAlertCfg) : Option String :=
  jsOr m.alertTo env.emailToEnv

/-- `process.env.EMAIL_FROM || monitor?.emailFrom` — env first. -/
def resolvedEmailFrom (env : EnvConfig) (m : MonitorAlertCfg) : Option String :=
  jsOr env.emailFromEnv m.emailFrom

/-- The claim's resolution rule for the sender field, following the
spec's words (monitor-specific first, process-wide fallback); kept only
to compare the claim with the code's `resolvedEmailFrom`. -/
def specResolvedEmailFrom (env : EnvConfig) (m : MonitorAlertCfg) : Option String :=
  jsOr m.emailFrom env.emailFromEnv

/-- Outcome of the CRITICAL email branch: either the channel is skipped
with a log line, or a dispatch is attempted with the four resolved
values. -/
inductive EmailDispatch where
  | skippedLogged
  | sent (url key recip sender : String)
deriving DecidableEq, Repr

/-- The CRITICAL email branch of the `SendAlert` handler: resolve the
four fields, skip-and-log when any is falsy, otherwise attempt the
dispatch. -/
def routeCriticalEmail (env : EnvConfig) (m : MonitorAlertCfg) : EmailDispatch :=
  let u := resolvedEmailApiUrl env m
  let k := resolvedEmailApiKey env m
  let recip := resolvedEmailTo env m
  let fr := resolvedEmailFrom env m
  if truthy u && truthy k && truthy recip && truthy fr then
    .sent (u.getD "") (k.getD "") (recip.getD "") (fr.getD "")
  else
    .skippedLogged

/-- C3 counterexample: with a monitor-specific sender and a different
process-wide sender both configured, the code resolves the sender to
the process-wide value, not the monitor-specific one the claim
requires. -/
theorem C3_email_sourcing_counterexample :
    resolvedEmailFrom ⟨none, none, none, some "env-sender", none⟩
        ⟨none, none, none, some "monitor-sender", none⟩ = some "env-sender" ∧
    specResolvedEmailFrom ⟨none, none, none, some "env-sender", none⟩
        ⟨none, none, none, some "monitor-sender", none⟩ = some "monitor-sender" ∧
    (some "env-sender" : Option String) ≠ some "monitor-sender" := by
  decide

/-- C3 (amended): a CRITICAL email dispatch is attempted exactly when
all four of endpoint, credential, recipient and sender resolve to a
truthy value, where endpoint, credential and sender are sourced from
the process-wide configuration first with monitor-specific fallback,
and the recipient from the monitor-specific configuration first with
process-wide fallback; otherwise the channel is skipped and logged,
never failed. -/
theorem C3_critical_email_routing (env : EnvConfig) (m : MonitorAlertCfg) :
    ((∃ u k recip fr, routeCriticalEmail env m = .sent u k recip fr) ↔
      (truthy (jsOr env.emailApiUrlEnv m.emailApiUrl) = true ∧
       truthy (jsOr env.emailApiKeyEnv m.emailApiKey) = true ∧
       truthy (jsOr m.alertTo env.emailToEnv) = true ∧
       truthy (jsOr env.emailFromEnv m.emailFrom) = true)) ∧
    (routeCriticalEmail env m = .skippedLogged ∨
      ∃ u k recip fr, routeCriticalEmail env m = .sent u k recip fr) := by
  unfold routeCriticalEmail resolvedEmailApiUrl resolvedEmailApiKey
    resolvedEmailTo resolvedEmailFrom
  cases hcond : (truthy (jsOr env.emailApiUrlEnv m.emailApiUrl)
      && truthy (jsOr env.emailApiKeyEnv m.emailApiKey)
      && truthy (jsOr m.alertTo env.emailToEnv)
      && truthy (jsOr env.emailFromEnv m.emailFrom)) with
  | true =>
    have hall := hcond
    simp only [Bool.and_eq_true] at hall
    simp [hcond, hall.1.1.1, hall.1.1.2, hall.1.2, hall.2]
  | false =>
    simp [hcond]
    rintro h1 h2 h3
    rw [h1, h2, h3] at hcond
    simpa using hcond

/-! ## Monitor-creation API (`monitors-api.step.ts`) -/

/-- The validated fields of a creation request, as produced by the
schema validator (zod is an out-of-scope collaborator; the handler is
parameterized over its outcome). -/
structure ParsedMonitorInput where
  url : String
  name : Option String
  failureThreshold : Option Nat
  timeoutMs : Option Nat
  alertWebhookUrl : Option String
  alertTo : Option String
  emailFrom : Option String
deriving DecidableEq, Repr

/-- The monitor configuration object stored in state, with defaults
applied (`failureThreshold ?? 3`, `timeoutMs ?? 5000`). -/
structure StoredMonitorConfig where
  id : String
  url : String
  name : Option String
  failureThreshold : Nat
  timeoutMs : Nat
  alertWebhookUrl : Option String
  alertTo : Option String
  emailFrom : Option String
  createdAt : String
deriving DecidableEq, Repr

/-- The three response shapes of the creation handler: 201 with
`monitorId`, 400 with structured field detail, 500 with
`internal_error`. -/
inductive CreateMonitorResponse where
  | created (monitorId : String)
  | invalidInput (details : List (String × String))
  | internalError
deriving DecidableEq, Repr

/-- The `CreateMonitorAPI` handler: 400 with the validator's
field-level detail when validation fails; otherwise build the config
with defaults and store it — 201 with the monitor id when the store
write succeeds, 500 `internal_error` when it throws. `monitorId` is the
generated UUID and `nowIso` the creation timestamp, both produced by
out-of-scope collaborators. -/
def createMonitorHandler
    (validated : Except (List (String × String)) ParsedMonitorInput)
    (monitorId nowIso : String) (storeOk : Bool) :
    CreateMonitorResponse × Option StoredMonitorConfig :=
  match validated with
  | .error details => (.invalidInput details, none)
  | .ok d =>
    let cfg : StoredMonitorConfig :=
      ⟨monitorId, d.url, d.name, d.failureThreshold.getD 3,
        d.timeoutMs.getD 5000, d.alertWebhookUrl, d.alertTo, d.emailFrom,
        nowIso⟩
    if storeOk then (.created monitorId, some cfg)
    else (.internalError, none)

/-- C7 counterexample: an input that passes validation but whose store
write fails yields a 500 `internal_error` — not the 201 the claim
requires for every validated input, and an error kind other than
ValidationError surfaced to the caller. -/
theorem C7_only_validation_errors_counterexample :
    (createMonitorHandler
        (.ok ⟨"http://a.example", none, none, none, none, none, none⟩)
        "id1" "t0" false).1 = .internalError ∧
    CreateMonitorResponse.internalError ≠ .created "id1" ∧
    CreateMonitorResponse.internalError ≠ .invalidInput [] := by
  refine ⟨rfl, by decide, by decide⟩

/-- C7 (amended): the handler returns 400 with the validator's
field-level detail exactly when validation fails; when validation
passes it returns 201 with the monitor id exactly when the store write
succeeds, storing a configuration with defaults `failureThreshold = 3`
and `timeoutMs = 5000` applied to omitted fields; a failing store write
surfaces as a 500 `internal_error`. -/
theorem C7_creation_endpoint
    (v : Except (List (String × String)) ParsedMonitorInput)
    (id now : String) (ok : Bool) :
    ((∃ d, (createMonitorHandler v id now ok).1 = .invalidInput d) ↔
      ∃ d, v = .error d) ∧
    ((createMonitorHandler v id now ok).1 = .created id ↔
      (∃ p, v = .ok p) ∧ ok = true) ∧
    (∀ p, v = .ok p → ok = true →
      ∃ cfg, (createMonitorHandler v id now ok).2 = some cfg ∧
        cfg.failureThreshold = p.failureThreshold.getD 3 ∧
        cfg.timeoutMs = p.timeoutMs.getD 5000) ∧
    (∀ p, v = .ok p → ok = false →
      (createMonitorHandler v id now ok).1 = .internalError) := by
  match v with
  | .error d =>
    refine ⟨⟨fun _ => ⟨d, rfl⟩, fun _ => ⟨d, rfl⟩⟩, ?_, ?_, ?_⟩
    · constructor
      · intro h; cases h
      · rintro ⟨⟨p, hp⟩, -⟩; cases hp
    · intro p hp; cases hp
    · intro p hp; cases hp
  | .ok p =>
    cases ok with
    | true =>
      refine ⟨?_, ?_, ?_, ?_⟩
      · constructor
        · rintro ⟨d, hd⟩; cases hd
        · rintro ⟨d, hd⟩; cases hd
      · exact ⟨fun _ => ⟨⟨p, rfl⟩, rfl⟩, fun _ => rfl⟩
      · rintro q hq -
        cases hq
        exact ⟨_, rfl, rfl, rfl⟩
      · rintro q - h; cases h
    | false =>
      refine ⟨?_, ?_, ?_, ?_⟩
      · constructor
        · rintro ⟨d, hd⟩; cases hd
        · rintro ⟨d, hd⟩; cases hd
      · constructor
        · intro h; cases h
        · rintro ⟨-, h⟩; cases h
      · rintro q - h; cases h
      · rintro q hq -; rfl

/-- Witness for C7 (amended): a concrete valid input with a working
store yields 201 and the defaulted configuration. -/
theorem C7_creation_endpoint_witness :
    (createMonitorHandler
        (.ok ⟨"http://a.example", none, none, none, none, none, none⟩)
        "id1" "t0" true).1 = .created "id1" :=
  ((C7_creation_endpoint
      (.ok ⟨"http://a.example", none, none, none, none, none, none⟩)
      "id1" "t0" true).2.1).mpr
    ⟨⟨⟨"http://a.example", none, none, none, none, none, none⟩, rfl⟩, rfl⟩

/-! ## Status streaming endpoint (`status-api.step.ts`) -/

/-- The one initial placeholder event written right after the headers
are flushed: `monitorId ?? ''`, null `success`/`latency`/
`uptimePercent`, and `timestamp = new Date().toISOString()`.  The
payload object carries no `statusCode` field at all. -/
structure InitialStatusEvent where
  monitorId : String
  success : Option Bool
  latency : Option ℚ
  uptimePercent : Option ℚ
  timestamp : Option String
deriving DecidableEq, Repr

/-- The initial placeholder event as built by the handler, from the
route parameter (`none` when absent) and the current ISO time. -/
def initialStatusEvent (mid : Option String) (nowIso : String) :
    InitialStatusEvent :=
  ⟨mid.getD "", none, none, none, some nowIso⟩

/-- The events the handler writes during connection setup, before
either timer is installed: exactly the initial placeholder event. -/
def setupEvents (mid : Option String) (nowIso : String) :
    List InitialStatusEvent :=
  [initialStatusEvent mid nowIso]

/-- C8 counterexample: the initial placeholder event's `timestamp` is
the current ISO time, not null as the claim states. -/
theorem C8_initial_event_counterexample :
    (initialStatusEvent (some "m1") "2026-10-11T00:00:00.000Z").timestamp
      = some "2026-10-11T00:00:00.000Z" ∧
    (initialStatusEvent (some "m1") "2026-10-11T00:00:00.000Z").timestamp
      ≠ none := by
  decide

/-- C8 (amended): the handler emits exactly one initial placeholder
event before any polling output; in it `success`, `latency` and the
derived uptime percentage are null, no `statusCode` field is present,
and `timestamp` is the connection's current time. -/
theorem C8_initial_event_fields (mid : Option String) (now : String) :
    (setupEvents mid now).length = 1 ∧
    (initialStatusEvent mid now).success = none ∧
    (initialStatusEvent mid now).latency = none ∧
    (initialStatusEvent mid now).uptimePercent = none ∧
    (initialStatusEvent mid now).timestamp = some now :=
  ⟨rfl, rfl, rfl, rfl, rfl⟩

/-- The per-connection teardown state of the SSE handler: the `closed`
guard flag, whether each interval reference is non-null, and how many
times `clearInterval` has run on each. -/
structure SSEConn where
  closed : Bool
  pollActive : Bool
  kaActive : Bool
  pollClears : Nat
  kaClears : Nat
deriving DecidableEq, Repr

/-- `cleanup` from `status-api.step.ts`: a no-op when `closed` is
already set; otherwise it sets `closed` and, for each non-null interval
reference, calls `clearInterval` once and nulls the reference. -/
def cleanup (s : SSEConn) : SSEConn :=
  if s.closed then s
  else
    ⟨true, false, false,
      s.pollClears + (if s.pollActive then 1 else 0),
      s.kaClears + (if s.kaActive then 1 else 0)⟩

/-- The connection state once the handler has installed both the
keep-alive interval and the polling interval. -/
def connAfterSetup : SSEConn := ⟨false, true, true, 0, 0⟩

/-- A periodic tick can fire only while its interval is registered. -/
def timerCanFire (s : SSEConn) : Bool := s.pollActive || s.kaActive

/-- C9: `cleanup` is idempotent, and however many times it is invoked
(write-failure path, disconnect path, or both), each of the two
intervals is cleared exactly once and neither timer can fire afterwards. -/
theorem C9_cleanup_idempotent :
    (∀ s, cleanup (cleanup s) = cleanup s) ∧
    ∀ n, (cleanup^[n + 1] connAfterSetup).pollClears = 1 ∧
      (cleanup^[n + 1] connAfterSetup).kaClears = 1 ∧
      timerCanFire (cleanup^[n + 1] connAfterSetup) = false := by
  have hclosed : ∀ s : SSEConn, s.closed = true → cleanup s = s := by
    intro s h
    unfold cleanup
    rw [if_pos h]
  constructor
  · intro s
    by_cases h : s.closed
    · rw [hclosed s h, hclosed s h]
    · apply hclosed
      unfold cleanup
      rw [if_neg h]
  · intro n
    have h1 : cleanup connAfterSetup = ⟨true, false, false, 1, 1⟩ := rfl
    have hfix : ∀ m, cleanup^[m] (⟨true, false, false, 1, 1⟩ : SSEConn)
        = ⟨true, false, false, 1, 1⟩ := by
      intro m
      induction m with
      | zero => rfl
      | succ m ih => rw [Function.iterate_succ_apply, hclosed _ rfl, ih]
    rw [Function.iterate_succ_apply, h1, hfix]
    exact ⟨rfl, rfl, rfl⟩

end Uptime
